import Mathlib

/-!
Shallow embedding of the rs.go repository (packages `result`, `option`,
and the older revision of package `result`).

Modelling conventions:
* A Go nilable pointer slot `*T` is embedded as `Option T` (`none` = nil).
* A Go panic is embedded as `Except.error msg`: every operation whose Go
  body can panic (an explicit `panic(msg)` call, or a dereference `*p` of
  a possibly-nil pointer) returns `Except String α`; an operation whose
  body contains neither is a plain total function.
* Dereferencing a pointer is the explicit fallible operation `goDeref`;
  on nil it fails with the Go runtime's nil-dereference panic message.
* `reflect.DeepEqual` on values of type `T` is embedded as decidable
  equality on `T`.
* Go's generic constraint `E error` on the package-level constructors is
  dropped: `error` is an interface constraint, not behaviour, so `E` is
  kept as an arbitrary type; a nilable `error` interface value (as taken
  by `result.Match`) is embedded as `Option E`.
-/

/-- The message of the Go runtime panic raised by dereferencing nil. -/
def goNilDerefMsg : String :=
  "runtime error: invalid memory address or nil pointer dereference"

/-- Go pointer dereference `*p`: yields the pointee, or panics on nil. -/
def goDeref {α : Type} : Option α → Except String α
  | Option.some a => Except.ok a
  | Option.none => Except.error goNilDerefMsg

/-- Go struct `option.Option[T] { some *T }` (package `option`). -/
structure GoOption (T : Type) where
  some : Option T
deriving DecidableEq

namespace GoOption

/-- `func (o Option[T]) IsSome() bool { return o.some != nil }`. -/
def IsSome {T : Type} (o : GoOption T) : Bool :=
  o.some.isSome

/-- `func (o Option[T]) IsNone() bool { return o.some == nil }`. -/
def IsNone {T : Type} (o : GoOption T) : Bool :=
  o.some.isNone

/-- `option.And`: if the receiver is some, return the receiver, else `other`. -/
def And {T : Type} (o other : GoOption T) : GoOption T :=
  if o.IsSome then o else other

/-- `option.AndThen`: if some, apply `fn` to the dereferenced payload, else receiver. -/
def AndThen {T : Type} (o : GoOption T) (fn : T → GoOption T) :
    Except String (GoOption T) :=
  if o.IsSome then do
    let v ← goDeref o.some
    pure (fn v)
  else pure o

/-- `option.Expect`: panics with `msg` when none, else dereferences the payload. -/
def Expect {T : Type} (o : GoOption T) (msg : String) : Except String T :=
  if o.IsNone then Except.error msg
  else goDeref o.some

/-- `option.Unwrap`: when none, calls `Expect "unwrapped a none"` (discarding
its value, but propagating its panic); then dereferences the payload. -/
def Unwrap {T : Type} (o : GoOption T) : Except String T :=
  if o.IsNone then do
    let _ ← o.Expect "unwrapped a none"
    goDeref o.some
  else goDeref o.some

/-- Package-level constructor `option.Some`. -/
def Some {T : Type} (data : T) : GoOption T :=
  { some := Option.some data }

/-- Package-level constructor `option.None`. -/
def None {T : Type} : GoOption T :=
  { some := Option.none }

end GoOption

/-- Go struct `result.Result[T, E] { ok *T; err *E }`; both revisions of the
package declare this identical struct, so it is shared by the embeddings of
both. -/
structure Result (T E : Type) where
  ok : Option T
  err : Option E
deriving DecidableEq

namespace Result

/-- `func (r Result[T, E]) IsOk() bool { return r.ok != nil && r.err == nil }`. -/
def IsOk {T E : Type} (r : Result T E) : Bool :=
  r.ok.isSome && r.err.isNone

/-- `func (r Result[T, E]) IsErr() bool { return r.ok == nil && r.err != nil }`. -/
def IsErr {T E : Type} (r : Result T E) : Bool :=
  r.ok.isNone && r.err.isSome

/-- `Result.And`: returns `res` if the receiver is ok, else the receiver. -/
def And {T E : Type} (r res : Result T E) : Result T E :=
  if r.IsOk then res else r

/-- `Result.AndThen`: if ok, applies `fn` to the dereferenced payload, else receiver. -/
def AndThen {T E : Type} (r : Result T E) (fn : T → Result T E) :
    Except String (Result T E) :=
  if r.IsOk then do
    let v ← goDeref r.ok
    pure (fn v)
  else pure r

/-- `Result.Or`: returns the receiver if ok, else `res`. -/
def Or {T E : Type} (r res : Result T E) : Result T E :=
  if r.IsOk then r else res

/-- `Result.OrElse`: if err, applies `fn` to the dereferenced error, else receiver. -/
def OrElse {T E : Type} (r : Result T E) (fn : E → Result T E) :
    Except String (Result T E) :=
  if r.IsErr then do
    let e ← goDeref r.err
    pure (fn e)
  else pure r

/-- `Result.Contains`: if ok and the dereferenced payload is deep-equal to
`data`, true; otherwise false. -/
def Contains {T E : Type} [DecidableEq T] (r : Result T E) (data : T) :
    Except String Bool :=
  if r.IsOk then do
    let v ← goDeref r.ok
    if v = data then pure true else pure false
  else pure false

/-- `Result.Map`: if ok, wraps `fn` of the dereferenced payload as a fresh
ok result (err slot nil); else the receiver. -/
def Map {T E : Type} (r : Result T E) (fn : T → T) :
    Except String (Result T E) :=
  if r.IsOk then do
    let op ← goDeref r.ok
    pure { ok := Option.some (fn op), err := Option.none }
  else pure r

/-- `Result.MapErr`: if err, wraps `fn` of the dereferenced error as a fresh
err result (ok slot nil); else the receiver. -/
def MapErr {T E : Type} (r : Result T E) (fn : E → E) :
    Except String (Result T E) :=
  if r.IsErr then do
    let op ← goDeref r.err
    pure { ok := Option.none, err := Option.some (fn op) }
  else pure r

/-- `Result.MapOr`: if ok, `fn` of the dereferenced payload; else the default. -/
def MapOr {T E : Type} (r : Result T E) (dflt : T) (fn : T → T) :
    Except String T :=
  if r.IsOk then do
    let v ← goDeref r.ok
    pure (fn v)
  else pure dflt

/-- Method `Result.Ok`: the payload as an `option.Option[T]` (none on err). -/
def Ok {T E : Type} (r : Result T E) : Except String (GoOption T) :=
  if r.IsOk then do
    let v ← goDeref r.ok
    pure (GoOption.Some v)
  else pure GoOption.None

/-- `Result.IsOkAnd`: ok and the predicate holds on the dereferenced payload. -/
def IsOkAnd {T E : Type} (r : Result T E) (fn : T → Bool) :
    Except String Bool :=
  if r.IsOk then do
    let v ← goDeref r.ok
    pure (fn v)
  else pure false

/-- Method `Result.Err`: the error as an `option.Option[E]` (none on ok). -/
def Err {T E : Type} (r : Result T E) : Except String (GoOption E) :=
  if r.IsErr then do
    let e ← goDeref r.err
    pure (GoOption.Some e)
  else pure GoOption.None

/-- `Result.Expect`: if ok, the dereferenced payload; else panics with `msg`. -/
def Expect {T E : Type} (r : Result T E) (msg : String) : Except String T :=
  if r.IsOk then goDeref r.ok
  else Except.error msg

/-- `Result.ExpectErr`: if not err, panics with `msg`; else the dereferenced error. -/
def ExpectErr {T E : Type} (r : Result T E) (msg : String) : Except String E :=
  if !r.IsErr then Except.error msg
  else goDeref r.err

/-- `Result.Unwrap`: `Expect` with the fixed message of the newer revision. -/
def Unwrap {T E : Type} (r : Result T E) : Except String T :=
  r.Expect "called Unwrap an on an error"

/-- `Result.UnwrapErr`: `ExpectErr` with a fixed message. -/
def UnwrapErr {T E : Type} (r : Result T E) : Except String E :=
  r.ExpectErr "called UnwrapErr an ok"

end Result

namespace result

/-- Package-level constructor `result.Ok` (Go fixes `E` to the `error`
interface; `E` is kept as an arbitrary type here). -/
def Ok {T E : Type} (data : T) : Result T E :=
  { ok := Option.some data, err := Option.none }

/-- Package-level constructor `result.Err` (Go constrains `E error`). -/
def Err {T E : Type} (e : E) : Result T E :=
  { ok := Option.none, err := Option.some e }

/-- `result.Match(data, e)`: if the error is non-nil, `Err(e)`; else `Ok(data)`.
The nilable `error` argument is embedded as `Option E`. -/
def Match {T E : Type} (data : T) (e : Option E) : Result T E :=
  match e with
  | Option.some e0 => Err e0
  | Option.none => Ok data

end result

/-! The older revision of package `result` (the second source file). It
declares the identical struct `Result[T, E] { ok *T; err *E }`, so its
operations are embedded over the same `Result` structure. -/

namespace V0

/-- Older revision, `Result.IsOk` (declared before the combinators here only
because Lean requires definition before use; the body is the source's). -/
def Result.IsOk {T E : Type} (r : Result T E) : Bool :=
  r.ok.isSome && r.err.isNone

/-- Older revision, `Result.IsErr`. -/
def Result.IsErr {T E : Type} (r : Result T E) : Bool :=
  r.ok.isNone && r.err.isSome

/-- Older revision, `Result.And`: returns `res` if ok, else the receiver. -/
def Result.And {T E : Type} (r res : Result T E) : Result T E :=
  if V0.Result.IsOk r then res else r

/-- Older revision, `Result.Map`: if ok, wraps `fn` of the dereferenced
payload as a fresh ok result; else the receiver. -/
def Result.Map {T E : Type} (r : Result T E) (fn : T → T) :
    Except String (Result T E) :=
  if V0.Result.IsOk r then do
    let op ← goDeref r.ok
    pure { ok := Option.some (fn op), err := Option.none }
  else pure r

/-- Older revision, `Result.MapErr`: if err, wraps `fn` of the dereferenced
error as a fresh err result; else the receiver. -/
def Result.MapErr {T E : Type} (r : Result T E) (fn : E → E) :
    Except String (Result T E) :=
  if V0.Result.IsErr r then do
    let op ← goDeref r.err
    pure { ok := Option.none, err := Option.some (fn op) }
  else pure r

/-- Older revision, method `Result.Ok`: payload as `option.Option[T]`. -/
def Result.Ok {T E : Type} (r : Result T E) : Except String (GoOption T) :=
  if V0.Result.IsOk r then do
    let v ← goDeref r.ok
    pure (GoOption.Some v)
  else pure GoOption.None

/-- Older revision, method `Result.Err`: error as `option.Option[E]`. -/
def Result.Err {T E : Type} (r : Result T E) : Except String (GoOption E) :=
  if V0.Result.IsErr r then do
    let e ← goDeref r.err
    pure (GoOption.Some e)
  else pure GoOption.None

/-- Older revision, `Result.Expect`: if ok, the dereferenced payload; else
panics with `msg`. -/
def Result.Expect {T E : Type} (r : Result T E) (msg : String) :
    Except String T :=
  if V0.Result.IsOk r then goDeref r.ok
  else Except.error msg

/-- Older revision, `Result.Unwrap`: `Expect` with the older revision's
fixed message, which differs from the newer revision's. -/
def Result.Unwrap {T E : Type} (r : Result T E) : Except String T :=
  V0.Result.Expect r "attempted to unwrap an error"

/-- Older revision, package-level constructor `result.Ok`. -/
def Ok {T E : Type} (data : T) : Result T E :=
  { ok := Option.some data, err := Option.none }

/-- Older revision, package-level constructor `result.Err`. -/
def Err {T E : Type} (e : E) : Result T E :=
  { ok := Option.none, err := Option.some e }

end V0

/-! Theorems. -/

/-- Helper: a result that satisfies `IsErr` does not satisfy `IsOk`. -/
theorem Result.isOk_false_of_isErr {T E : Type} {r : Result T E}
    (h : r.IsErr = true) : r.IsOk = false := by
  obtain ⟨o, e⟩ := r
  cases o <;> cases e <;> simp [Result.IsOk, Result.IsErr] at h ⊢

/-- C1 counterexample: the zero value of `Result` (both slots nil, obtainable
in Go without calling a constructor) falsifies the claimed XOR invariant:
`IsOk` and `IsErr` are equal on it — both are `false`. -/
theorem zero_result_breaks_isOk_isErr_xor :
    ¬(Result.IsOk ({ ok := Option.none, err := Option.none } : Result Nat Nat) ≠
        Result.IsErr ({ ok := Option.none, err := Option.none } : Result Nat Nat)) ∧
    Result.IsOk ({ ok := Option.none, err := Option.none } : Result Nat Nat) = false ∧
    Result.IsErr ({ ok := Option.none, err := Option.none } : Result Nat Nat) = false := by
  refine ⟨?_, rfl, rfl⟩
  intro h
  exact h rfl

/-- C1 (amended): for every `Result` in which exactly one of the two slots is
populated — in particular every result built by the `Ok` or `Err`
constructor — exactly one of `IsOk` and `IsErr` is true. -/
theorem isOk_xor_isErr_of_single_slot {T E : Type} (r : Result T E)
    (h : r.ok.isSome ≠ r.err.isSome) : Result.IsOk r ≠ Result.IsErr r := by
  obtain ⟨o, e⟩ := r
  cases o <;> cases e <;> simp [Result.IsOk, Result.IsErr] at h ⊢

/-- C1 witness: the constructor-built result `Ok 3` has exactly one slot
populated, and on it `IsOk` and `IsErr` differ. -/
theorem isOk_xor_isErr_of_single_slot_witness :
    ((Option.some (3 : Nat)).isSome ≠ (Option.none : Option Nat).isSome) ∧
    Result.IsOk ({ ok := Option.some 3, err := Option.none } : Result Nat Nat) ≠
      Result.IsErr ({ ok := Option.some 3, err := Option.none } : Result Nat Nat) :=
  ⟨by decide, isOk_xor_isErr_of_single_slot _ (by decide)⟩

/-- C2: on the zero value of `Result` (neither slot populated), `IsOk` and
`IsErr` are both false, and both `Expect` and `ExpectErr` panic with the
supplied message. -/
theorem zero_result_neither_and_extraction_panics {T E : Type} (m : String) :
    Result.IsOk ({ ok := Option.none, err := Option.none } : Result T E) = false ∧
    Result.IsErr ({ ok := Option.none, err := Option.none } : Result T E) = false ∧
    Result.Expect ({ ok := Option.none, err := Option.none } : Result T E) m =
      Except.error m ∧
    Result.ExpectErr ({ ok := Option.none, err := Option.none } : Result T E) m =
      Except.error m :=
  ⟨rfl, rfl, rfl, rfl⟩

/-- C3: `option.And` keeps the receiver when it is present and falls through
to `other` when the receiver is absent (first-present-wins, or-like). -/
theorem option_and_first_present_wins {T : Type} (o other : GoOption T) :
    (GoOption.IsSome o = true → GoOption.And o other = o) ∧
    (GoOption.IsSome o = false → GoOption.And o other = other) := by
  constructor <;> intro h <;> simp [GoOption.And, h]

/-- C3 witness: a present receiver wins over the argument. -/
theorem option_and_first_present_wins_witness :
    GoOption.IsSome (GoOption.Some (1 : Nat)) = true ∧
    GoOption.And (GoOption.Some (1 : Nat)) GoOption.None = GoOption.Some 1 :=
  ⟨rfl, (option_and_first_present_wins _ _).1 rfl⟩

/-- C4: `Result.And` returns `other` when the receiver is ok and returns the
receiver unchanged when the receiver is an error (conventional monadic and). -/
theorem result_and_monadic {T E : Type} (r other : Result T E) :
    (Result.IsOk r = true → Result.And r other = other) ∧
    (Result.IsErr r = true → Result.And r other = r) := by
  constructor <;> intro h
  · simp [Result.And, h]
  · simp [Result.And, Result.isOk_false_of_isErr h]

/-- C4 witness: an ok receiver yields the argument. -/
theorem result_and_monadic_witness :
    Result.IsOk (result.Ok (5 : Nat) : Result Nat Nat) = true ∧
    Result.And (result.Ok (5 : Nat) : Result Nat Nat) (result.Err 7) =
      result.Err 7 :=
  ⟨rfl, (result_and_monadic _ _).1 rfl⟩

/-- C5: `Result.Map` maps an ok payload `v` to a fresh ok result holding
`fn v`, returns an error receiver unchanged, and on an error receiver its
value does not depend on `fn` at all (the function is never invoked). -/
theorem result_map_spec {T E : Type} (r : Result T E) (fn g : T → T) :
    (∀ v, Result.IsOk r = true → r.ok = Option.some v →
      Result.Map r fn =
        Except.ok { ok := Option.some (fn v), err := Option.none }) ∧
    (Result.IsErr r = true →
      Result.Map r fn = Except.ok r ∧ Result.Map r fn = Result.Map r g) := by
  constructor
  · intro v h hok
    obtain ⟨o, e⟩ := r
    cases o with
    | none => exact Option.noConfusion hok
    | some w =>
      cases e with
      | none =>
        injection hok with hv
        subst hv
        rfl
      | some e0 => exact Bool.noConfusion h
  · intro h
    have hok : Result.IsOk r = false := Result.isOk_false_of_isErr h
    constructor
    · simp [Result.Map, hok]
      rfl
    · simp [Result.Map, hok]

/-- C5 witness: mapping the successor over `Ok 5` yields `Ok 6`, and mapping
over an error result leaves it unchanged. -/
theorem result_map_spec_witness :
    (Result.IsOk ({ ok := Option.some 5, err := Option.none } : Result Nat Nat) = true ∧
     ({ ok := Option.some 5, err := Option.none } : Result Nat Nat).ok = Option.some 5 ∧
     Result.Map ({ ok := Option.some 5, err := Option.none } : Result Nat Nat)
        (fun x => x + 1) =
       Except.ok { ok := Option.some 6, err := Option.none }) ∧
    (Result.IsErr ({ ok := Option.none, err := Option.some 3 } : Result Nat Nat) = true ∧
     Result.Map ({ ok := Option.none, err := Option.some 3 } : Result Nat Nat)
        (fun x => x + 1) =
       Except.ok { ok := Option.none, err := Option.some 3 }) :=
  ⟨⟨rfl, rfl,
    (result_map_spec ({ ok := Option.some 5, err := Option.none } : Result Nat Nat)
      (fun x => x + 1) id).1 5 rfl rfl⟩,
   ⟨rfl,
    ((result_map_spec ({ ok := Option.none, err := Option.some 3 } : Result Nat Nat)
      (fun x => x + 1) id).2 rfl).1⟩⟩

/-- C6: `Expect` returns the ok payload when the receiver is ok and panics
with exactly the supplied message otherwise; `ExpectErr` returns the error
payload when the receiver is an error and panics with exactly the supplied
message otherwise. -/
theorem expect_family_spec {T E : Type} (r : Result T E) (m : String) :
    (Result.IsOk r = true →
      ∃ v, r.ok = Option.some v ∧ Result.Expect r m = Except.ok v) ∧
    (Result.IsOk r = false → Result.Expect r m = Except.error m) ∧
    (Result.IsErr r = true →
      ∃ e, r.err = Option.some e ∧ Result.ExpectErr r m = Except.ok e) ∧
    (Result.IsErr r = false → Result.ExpectErr r m = Except.error m) := by
  obtain ⟨o, e⟩ := r
  cases o <;> cases e <;> refine ⟨?_, ?_, ?_, ?_⟩ <;> intro h
  all_goals first
    | exact Bool.noConfusion h
    | exact ⟨_, rfl, rfl⟩
    | rfl

/-- C6 witness: on `Ok 9`, `Expect` extracts `9` without panicking and
`ExpectErr` panics with the supplied message. -/
theorem expect_family_spec_witness :
    Result.IsOk ({ ok := Option.some 9, err := Option.none } : Result Nat Nat) = true ∧
    (∃ v, ({ ok := Option.some 9, err := Option.none } : Result Nat Nat).ok =
        Option.some v ∧
      Result.Expect ({ ok := Option.some 9, err := Option.none } : Result Nat Nat)
          "boom" = Except.ok v) ∧
    Result.IsErr ({ ok := Option.some 9, err := Option.none } : Result Nat Nat) = false ∧
    Result.ExpectErr ({ ok := Option.some 9, err := Option.none } : Result Nat Nat)
        "boom" = Except.error "boom" :=
  ⟨rfl, (expect_family_spec _ "boom").1 rfl, rfl,
   (expect_family_spec _ "boom").2.2.2 rfl⟩

/-- C7: `result.Match` builds `Err e` (an error result) exactly when the
error argument is non-nil, and `Ok data` (an ok result) when it is nil:
the outcome is an error if and only if the error argument is present. -/
theorem match_failure_iff_err_present {T E : Type} (d : T) (oe : Option E) :
    (∀ e0, oe = Option.some e0 →
      result.Match d oe = result.Err e0 ∧
      Result.IsErr (result.Match d oe) = true) ∧
    (oe = Option.none →
      result.Match d oe = result.Ok d ∧
      Result.IsOk (result.Match d oe) = true) ∧
    (Result.IsErr (result.Match d oe) = true ↔ oe.isSome = true) := by
  cases oe with
  | none =>
    refine ⟨fun e0 h => Option.noConfusion h, fun _ => ⟨rfl, rfl⟩, ?_⟩
    simp [result.Match, result.Ok, Result.IsErr]
  | some e0 =>
    refine ⟨?_, fun h => Option.noConfusion h, ?_⟩
    · intro e1 h
      injection h with he
      subst he
      exact ⟨rfl, rfl⟩
    · simp [result.Match, result.Err, Result.IsErr]

/-- Helper: an if-then-else over two already-ok computations is ok. -/
theorem exists_ok_of_ite {c : Prop} [Decidable c] {α : Type} (a b : α) :
    ∃ x, (if c then (Except.ok a : Except String α) else Except.ok b) =
      Except.ok x := by
  split
  · exact ⟨a, rfl⟩
  · exact ⟨b, rfl⟩

/-- C7 witness: a nil error yields `Ok 5`; a present error yields `Err 2`. -/
theorem match_failure_iff_err_present_witness :
    (result.Match (5 : Nat) (Option.none : Option Nat) = result.Ok 5 ∧
     Result.IsOk (result.Match (5 : Nat) (Option.none : Option Nat)) = true) ∧
    (result.Match (0 : Nat) (Option.some (2 : Nat)) = result.Err 2 ∧
     Result.IsErr (result.Match (0 : Nat) (Option.some (2 : Nat))) = true) :=
  ⟨(match_failure_iff_err_present 5 Option.none).2.1 rfl,
   (match_failure_iff_err_present 0 (Option.some 2)).1 2 rfl⟩

/-- C8: no operation outside the expect/unwrap family can panic. Every
operation of the embedding whose body contains a pointer dereference —
`AndThen`, `OrElse`, `Contains`, `Map`, `MapErr`, `MapOr`, the `Ok`/`Err`
projections, `IsOkAnd`, and `option.AndThen` — returns `Except.ok` on every
receiver (the zero value with both slots nil included) and all arguments;
the remaining operations (`And`, `Or`, `option.And`, `Match`, the `is*`
predicates and the constructors) contain neither a panic nor a dereference
and are embedded as plain total functions, shown here to return one of
their expected values. -/
theorem non_extraction_ops_never_panic {T E : Type} [DecidableEq T]
    (r res : Result T E) (fnT : T → Result T E) (fnE : E → Result T E)
    (f : T → T) (g : E → E) (d x : T) (p : T → Bool)
    (o o2 : GoOption T) (fo : T → GoOption T) (oe : Option E) :
    (∃ a, Result.AndThen r fnT = Except.ok a) ∧
    (∃ a, Result.OrElse r fnE = Except.ok a) ∧
    (∃ b, Result.Contains r x = Except.ok b) ∧
    (∃ a, Result.Map r f = Except.ok a) ∧
    (∃ a, Result.MapErr r g = Except.ok a) ∧
    (∃ a, Result.MapOr r d f = Except.ok a) ∧
    (∃ a, Result.Ok r = Except.ok a) ∧
    (∃ b, Result.IsOkAnd r p = Except.ok b) ∧
    (∃ a, Result.Err r = Except.ok a) ∧
    (∃ a, GoOption.AndThen o fo = Except.ok a) ∧
    (Result.And r res = res ∨ Result.And r res = r) ∧
    (Result.Or r res = r ∨ Result.Or r res = res) ∧
    (GoOption.And o o2 = o ∨ GoOption.And o o2 = o2) ∧
    (result.Match d oe = result.Ok d ∨
      ∃ e0, result.Match d oe = result.Err e0) := by
  obtain ⟨oo, ee⟩ := r
  obtain ⟨os⟩ := o
  cases oo <;> cases ee <;> cases os <;> cases oe <;>
    refine ⟨?_, ?_, ?_, ?_, ?_, ?_, ?_, ?_, ?_, ?_, ?_, ?_, ?_, ?_⟩ <;>
    first
      | exact ⟨_, rfl⟩
      | exact exists_ok_of_ite true false
      | exact Or.inl rfl
      | exact Or.inr rfl
      | exact Or.inr ⟨_, rfl⟩

/-- C9: once the receiver is a failure, `And` short-circuits, so a second
application of `.And r2` changes nothing. -/
theorem and_idempotent_second_application {T E : Type} (r r2 : Result T E)
    (h : Result.IsErr r = true) :
    Result.And (Result.And r r2) r2 = Result.And r r2 := by
  have hok := Result.isOk_false_of_isErr h
  simp [Result.And, hok]

/-- C9 witness: with the failure `Err 1` and `r2 = Ok 2`. -/
theorem and_idempotent_second_application_witness :
    Result.IsErr (result.Err (1 : Nat) : Result Nat Nat) = true ∧
    Result.And (Result.And (result.Err (1 : Nat) : Result Nat Nat)
        (result.Ok 2)) (result.Ok 2) =
      Result.And (result.Err (1 : Nat) : Result Nat Nat) (result.Ok 2) :=
  ⟨rfl, and_idempotent_second_application _ _ rfl⟩

/-- C10 counterexample: `Unwrap` is defined by both revisions, yet the two
revisions disagree on it: on the error result `Err 0` the older revision
panics with "attempted to unwrap an error" while the newer one panics with
"called Unwrap an on an error" — so the revisions are not extensionally
equal on every operation they both define. -/
theorem v0_unwrap_differs_from_unwrap :
    V0.Result.Unwrap ({ ok := Option.none, err := Option.some 0 } : Result Nat Nat) =
      Except.error "attempted to unwrap an error" ∧
    Result.Unwrap ({ ok := Option.none, err := Option.some 0 } : Result Nat Nat) =
      Except.error "called Unwrap an on an error" ∧
    V0.Result.Unwrap ({ ok := Option.none, err := Option.some 0 } : Result Nat Nat) ≠
      Result.Unwrap ({ ok := Option.none, err := Option.some 0 } : Result Nat Nat) := by
  refine ⟨rfl, rfl, ?_⟩
  intro h
  injection h with h1
  exact absurd h1 (by decide)

/-- C10 (amended): the two revisions agree extensionally on `And`, `Map`,
`MapErr`, the `Ok`/`Err` projections, `IsOk`, `IsErr`, `Expect` and the
package-level constructors `Ok`/`Err` — every shared operation except
`Unwrap`, whose fixed panic message differs between the revisions. -/
theorem revisions_agree_on_listed_ops {T E : Type} (r res : Result T E)
    (f : T → T) (g : E → E) (m : String) (v : T) (e : E) :
    V0.Result.And r res = Result.And r res ∧
    V0.Result.Map r f = Result.Map r f ∧
    V0.Result.MapErr r g = Result.MapErr r g ∧
    V0.Result.Ok r = Result.Ok r ∧
    V0.Result.Err r = Result.Err r ∧
    V0.Result.IsOk r = Result.IsOk r ∧
    V0.Result.IsErr r = Result.IsErr r ∧
    V0.Result.Expect r m = Result.Expect r m ∧
    V0.Ok v = (result.Ok v : Result T E) ∧
    V0.Err e = (result.Err e : Result T E) :=
  ⟨rfl, rfl, rfl, rfl, rfl, rfl, rfl, rfl, rfl, rfl⟩
